import Mathlib

/-!
Verification development for the `SJLTools.SMTPSender` module
(`src/SJLTools/SMTPSender/SmtpSender.py`).

The module builds a MIME multipart/alternative email message and hands it to
an SMTP transport.  The shallow embedding below mirrors the Python class
`SmtpSender` and the top-level convenience function `send_email_message`.

Modelling conventions:
* Python lists become Lean `List`s; `list.extend(xs)` is `++ xs`.
* Python's `str.split(',')` (single-character separator, empty pieces kept,
  and `"".split(',') == [""]`) is modelled by the executable `pySplit` below.
* The SMTP transport (`smtplib.SMTP(...)` / `sendmail`) is an external
  collaborator: a successful `send_email` records the one `TransportCall`
  it performs (envelope from, envelope recipients, rendered message), and a
  failed one records none.  A raised Python exception is modelled by the
  `error` field of `SendResult` holding the exception's message.
* `time.strftime('%Y-%m-%d %H:%M')` reads the current local time; the clock
  is passed in explicitly as a `LocalTime` value and formatted faithfully
  (zero-padded fields) by `timeStrftime`.
* `attach_file` reads the attachment bytes from the filesystem; the bytes
  are passed in explicitly.  The `email` library's base64 transfer encoding
  of those bytes at serialization time is an external library capability and
  is not re-modelled; the part stores the raw bytes and the
  `Content-Disposition` header exactly as the code builds it.
* The `email` library's `MIMEMultipart` object keeps an ordered header list
  (`msg['X'] = v` appends) and an ordered payload list (`attach` appends);
  `as_string` serializes headers and payload in those orders, so part order
  in the serialized document is payload-list order.
-/

/-- Python `s.split(sep)` for a single-character separator: split at every
occurrence, keeping empty pieces (so splitting `""` yields `[""]`). -/
def splitCharsOn (sep : Char) : List Char → List Char → List String
  | [], acc => [String.mk acc.reverse]
  | c :: cs, acc =>
    if c = sep then String.mk acc.reverse :: splitCharsOn sep cs []
    else splitCharsOn sep cs (c :: acc)

/-- Python `s.split(sep)` on a `String`, single-character separator. -/
def pySplit (s : String) (sep : Char) : List String :=
  splitCharsOn sep s.data []

/-- A reading of the local wall clock, as consumed by
`time.strftime('%Y-%m-%d %H:%M')`. -/
structure LocalTime where
  year : Nat
  month : Nat
  day : Nat
  hour : Nat
  minute : Nat
  deriving Repr, DecidableEq

/-- The decimal digit character for `n` (meaningful for `n < 10`). -/
def digitChar (n : Nat) : Char := Char.ofNat (48 + n)

/-- Two-digit zero-padded decimal rendering (strftime `%m`, `%d`, `%H`, `%M`). -/
def pad2 (n : Nat) : String := String.mk [digitChar (n / 10 % 10), digitChar (n % 10)]

/-- Four-digit zero-padded decimal rendering (strftime `%Y` for calendar years). -/
def pad4 (n : Nat) : String :=
  String.mk [digitChar (n / 1000 % 10), digitChar (n / 100 % 10), digitChar (n / 10 % 10),
    digitChar (n % 10)]

/-- `time.strftime('%Y-%m-%d %H:%M')` applied to the given local time. -/
def timeStrftime (t : LocalTime) : String :=
  pad4 t.year ++ "-" ++ pad2 t.month ++ "-" ++ pad2 t.day ++ " " ++ pad2 t.hour ++ ":"
    ++ pad2 t.minute

/-- Does `s` match the pattern `YYYY-MM-DD HH:MM` (digits at the digit
positions, literal separators in between)? -/
def matchesTimestampPattern (s : String) : Bool :=
  match s.toList with
  | [y1, y2, y3, y4, '-', m1, m2, '-', d1, d2, ' ', h1, h2, ':', n1, n2] =>
    [y1, y2, y3, y4, m1, m2, d1, d2, h1, h2, n1, n2].all Char.isDigit
  | _ => false

/-- One MIME body part of the message: a `MIMEText` part (subtype `"plain"`
or `"html"`) or a `MIMEBase("application", "octet-stream")` file attachment
carrying its `Content-Disposition` header value and the attached bytes. -/
inductive MimePart where
  | text (subtype : String) (body : String)
  | application (contentDisposition : String) (content : List Nat)
  deriving Repr, DecidableEq

/-- The `MIMEMultipart` document: ordered header fields and ordered payload
parts, both in insertion order (which is serialization order). -/
structure SMTPMessage where
  headers : List (String × String)
  payload : List MimePart
  deriving Repr, DecidableEq

/-- One call to the SMTP transport:
`smtplib.SMTP(host).sendmail(from, recipients, message)`. -/
structure TransportCall where
  envelopeFrom : String
  envelopeRecipients : List String
  message : SMTPMessage
  deriving Repr, DecidableEq

/-- The state of an `SmtpSender` object (the Python instance attributes). -/
structure SmtpSender where
  sendFrom : String
  subject : String
  smtp_server : String
  to_addresses : List String
  cc_addresses : List String
  bcc_addresses : List String
  recipients : List String
  smtp_message : SMTPMessage
  html_header : String
  text_parts : List String
  html_parts : List String
  deriving Repr, DecidableEq

/-- The class attribute `_template_html_header`: the built-in default
stylesheet used when `add_html_text` is first called without a style. -/
def SmtpSender.template_html_header : String :=
  " \n        <style type=\"text/css\">\n\n        .ExternalClass \x7b\n            width: 100%;\n        \x7d\n        .ExternalClass, .ExternalClass p, .ExternalClass span, .ExternalClass font, .ExternalClass td, .ExternalClass \n        div \x7b line-height: 100%; \x7d\n\n        body \x7b\n            -webkit-text-size-adjust: none;\n            -ms-text-size-adjust: none;\n        \x7d\n        /* Prevents Webkit and Windows Mobile platforms from changing default font sizes. */\n\n        * \x7b\n            font-family: Arial, Helvetica, sans-serif;\n            font-size: 14px;\n        \x7d\n\n        html,\n        body \x7b\n            margin: 0;\n            padding: 0;\n            border: 0;\n            outline: 0;\n        \x7d\n        /* Resets all body margins and padding to 0 for good measure */\n\n        table td \x7b\n            border-collapse: collapse;\n            border-spacing: 0px;\n            border: 1px solid;\n            vertical-align: top;\n            padding: 2px;\n        \x7d\n\n        body,\n        #body_style \x7b\n            background: #fff;\n            min-height: 1000px;\n            color: #000;\n            font-family: Calibri, Arial, Helvetica, sans-serif;\n            font-size: 12px;\n        \x7d\n\n        html,\n        body \x7b\n            line-height: 1.2;\n        \x7d\n        h1,\n        h2,\n        h3,\n        h4,\n        h5,\n        h6,\n        p,\n        i,\n        b,\n        a,\n        ul,\n        li,\n        blockquote,\n        hr,\n        img,\n        div,\n        span,\n        strong \x7b\n            font-family: Calibri, Arial, Helvetica, sans-serif;\n            line-height: 1.2;\n            margin:0;\n            padding:0;\n            margin-top:1.5em;\n        \x7d\n        h1,\n        h2,\n        h3,\n        h4,\n        h5,\n        h6 \x7b\n            font-family: Calibri, Arial, Helvetica, sans-serif;\n            font-size: 18px;\n            color: black;\n        \x7d\n        h1 \x7b\n            font-family: Calibri, Arial, Helvetica, sans-serif;\n            font-size: 24px;\n            color: black;\n        \x7d\n        /* A more sensible default for H1s */\n\n        a,\n        a:link \x7b\n            color: #2A5DB0;\n            text-decoration: underline;\n        \x7d\n\n        img \x7b\n            display: block;\n            border: 0 none;\n            outline: none;\n            line-height: 100%;\n            outline: none;\n            text-decoration: none;\n            vertical-align: bottom;\n        \x7d\n        a img \x7b\n            border: 0 none;\n        \x7d\n\n        small \x7b\n            font-size: 11px;\n            line-height: 1.4;\n        \x7d\n        small a \x7b\n            color: inherit;\n            text-decoration: underline;\n        \x7d\n        span.yshortcuts \x7b\n            color: #000;\n            background-color: none;\n            border: none;\n        \x7d\n        span.yshortcuts:hover,\n        span.yshortcuts:active,\n        span.yshortcuts:focus \x7b\n            color: #000;\n            background-color: none;\n            border: none;\n        \x7d\n\n        /*Optional:*/\n\n        a:visited \x7b\n            color: #3c96e2;\n            text-decoration: none\n        \x7d\n        a:focus \x7b\n            color: #3c96e2;\n            text-decoration: underline\n        \x7d\n        a:hover \x7b\n            color: #3c96e2;\n            text-decoration: underline\n        \x7d\n        </style>\n        "

/-- `MIMEMultipart("alternative")` initial header fields. -/
def SmtpSender.initialHeaders : List (String × String) :=
  [("Content-Type", "multipart/alternative"), ("MIME-Version", "1.0")]

/-- `SmtpSender()` with no positional arguments: the attribute
initialization block of `__init__`. -/
def SmtpSender.init : SmtpSender :=
  { sendFrom := "do-not-reply@somewhere.org"
    subject := ""
    smtp_server := "smtp.host.address"
    to_addresses := []
    cc_addresses := []
    bcc_addresses := []
    recipients := []
    smtp_message := { headers := SmtpSender.initialHeaders, payload := [] }
    html_header := ""
    text_parts := []
    html_parts := [] }

/-- `add_to_line_address`: extends `_to_addresses` and `_recipients` with the
comma-split tokens of `address`. -/
def SmtpSender.add_to_line_address (s : SmtpSender) (address : String) : SmtpSender :=
  { s with
    to_addresses := s.to_addresses ++ pySplit address ','
    recipients := s.recipients ++ pySplit address ',' }

/-- `add_cc_line_address`: extends `_cc_addresses` and `_recipients` with the
comma-split tokens of `address`. -/
def SmtpSender.add_cc_line_address (s : SmtpSender) (address : String) : SmtpSender :=
  { s with
    cc_addresses := s.cc_addresses ++ pySplit address ','
    recipients := s.recipients ++ pySplit address ',' }

/-- `add_bcc_line_address`: extends `_bcc_addresses` and `_recipients` with
the comma-split tokens of `address`. -/
def SmtpSender.add_bcc_line_address (s : SmtpSender) (address : String) : SmtpSender :=
  { s with
    bcc_addresses := s.bcc_addresses ++ pySplit address ','
    recipients := s.recipients ++ pySplit address ',' }

/-- `add_plain_text`: appends one fragment to `_text_parts`. -/
def SmtpSender.add_plain_text (s : SmtpSender) (plain_text : String) : SmtpSender :=
  { s with text_parts := s.text_parts ++ [plain_text] }

/-- `add_html_text`: if `_html_header` is still empty, capture the header
(the passed `style_text`, or the class template when `style_text is None`);
then append the fragment to `_html_parts`. -/
def SmtpSender.add_html_text (s : SmtpSender) (html_text : String)
    (style_text : Option String) : SmtpSender :=
  let header :=
    if s.html_header.length = 0 then
      match style_text with
      | none => SmtpSender.template_html_header
      | some st => st
    else s.html_header
  { s with html_header := header, html_parts := s.html_parts ++ [html_text] }

/-- `os.path.basename` (POSIX): the component after the last `/`. -/
def basename (p : String) : String :=
  ((pySplit p '/').getLast?).getD p

/-- `attach_file`: builds the `application/octet-stream` part for the file's
bytes with header `Content-Disposition: attachment; filename= <basename>` and
attaches it to `_smtp_message` immediately.  `file_bytes` stands for the
filesystem read `open(file_path, "rb").read()`; the base64 transfer encoding
applied by `encoders.encode_base64` is an external library capability. -/
def SmtpSender.attach_file (s : SmtpSender) (file_path : String)
    (file_bytes : List Nat) : SmtpSender :=
  let file_name := basename file_path
  let file_part := MimePart.application ("attachment; filename= " ++ file_name) file_bytes
  { s with
    smtp_message :=
      { s.smtp_message with payload := s.smtp_message.payload ++ [file_part] } }

/-- The `to_addresses` property setter: replaces `_to_addresses` with a copy
of `value` and extends `_recipients` with it. -/
def SmtpSender.set_to_addresses (s : SmtpSender) (value : List String) : SmtpSender :=
  { s with to_addresses := value, recipients := s.recipients ++ value }

/-- The `cc_addresses` property setter: replaces `_cc_addresses` with a copy
of `value` and extends `_recipients` with it. -/
def SmtpSender.set_cc_addresses (s : SmtpSender) (value : List String) : SmtpSender :=
  { s with cc_addresses := value, recipients := s.recipients ++ value }

/-- The `bcc_addresses` property setter: replaces `_bcc_addresses` with a
copy of `value` and extends `_recipients` with it. -/
def SmtpSender.set_bcc_addresses (s : SmtpSender) (value : List String) : SmtpSender :=
  { s with bcc_addresses := value, recipients := s.recipients ++ value }

/-- The outcome of `send_email`: the object state after the call, the list of
transport calls performed, and the raised exception's message if any. -/
structure SendResult where
  state : SmtpSender
  transportCalls : List TransportCall
  error : Option String
  deriving Repr, DecidableEq

/-- `send_email(enable_subj_timestamp)`: validate `to_addresses`, `sendFrom`
and `smtp_server`; optionally append the formatted current time to the
subject; append the `Subject`/`From`/`To` (and, when `_cc_addresses` is
non-empty, `Cc`) header fields; attach the joined plain-text part and the
HTML part (header, `<BR>`, concatenated fragments) when non-empty; then send
`(sendFrom, _recipients, message)` through the transport.  `now` is the
local-clock reading consumed by `time.strftime`. -/
def SmtpSender.send_email (s : SmtpSender) (now : LocalTime)
    (enable_subj_timestamp : Bool) : SendResult :=
  if s.to_addresses.length = 0 then
    { state := s, transportCalls := []
      error := some "An SMTP message must have a To: line address to be sent." }
  else if s.sendFrom.length = 0 then
    { state := s, transportCalls := []
      error := some "An SMTP message must have a From: line address to be sent." }
  else if s.smtp_server.length = 0 then
    { state := s, transportCalls := []
      error := some "An SMTP message must have an SMTP host address to be sent." }
  else
    let timestamp_str := timeStrftime now
    let subject := if enable_subj_timestamp then s.subject ++ " " ++ timestamp_str else s.subject
    let headers := s.smtp_message.headers
      ++ [("Subject", subject), ("From", s.sendFrom),
          ("To", String.intercalate "," s.to_addresses)]
      ++ (if s.cc_addresses.length > 0
          then [("Cc", String.intercalate "," s.cc_addresses)] else [])
    let payload := s.smtp_message.payload
      ++ (if s.text_parts.length > 0
          then [MimePart.text "plain" (String.intercalate "\n" s.text_parts)] else [])
      ++ (if s.html_parts.length > 0
          then [MimePart.text "html" (s.html_header ++ "<BR>" ++ String.join s.html_parts)]
          else [])
    let msg : SMTPMessage := { headers := headers, payload := payload }
    { state := { s with subject := subject, smtp_message := msg }
      transportCalls :=
        [{ envelopeFrom := s.sendFrom, envelopeRecipients := s.recipients, message := msg }]
      error := none }

/-- `__init__` with the legacy positional arguments
`(txt, html, subj, sendTo, bcc, sendFrom, smtp_server)`, all strings; a
prefix of them may be supplied. -/
def SmtpSender.init_positional (args : List String) : SmtpSender :=
  let s0 := SmtpSender.init
  let s1 := match args.get? 0 with
    | some a => s0.add_plain_text a
    | none => s0
  let s2 := match args.get? 1 with
    | some a => s1.add_html_text a none
    | none => s1
  let s3 := match args.get? 2 with
    | some a => { s2 with subject := a }
    | none => s2
  let s4 := match args.get? 5 with
    | some a => { s3 with sendFrom := a }
    | none => s3
  let s5 := match args.get? 6 with
    | some a => { s4 with smtp_server := a }
    | none => s4
  let s6 := match (args.get? 3).map (fun a => pySplit a ',') with
    | some l => if l.length = 0 then s5 else { s5 with recipients := l, to_addresses := l }
    | none => s5
  match (args.get? 4).map (fun a => pySplit a ',') with
  | some l =>
    if l.length = 0 then s6
    else { s6 with recipients := s6.recipients ++ l, bcc_addresses := l }
  | none => s6

/-- The runtime type of an address argument of `send_email_message`: a
string, a list, or any other (unsupported) Python value. -/
inductive AddrParam where
  | str (s : String)
  | list (l : List String)
  | other
  deriving Repr, DecidableEq

/-- `send_email_message(to_addresses, subject, html_text, style,
from_address, cc_addresses, bcc_addresses)`: builds a transient `SmtpSender`
from the inputs (comma-splitting string address arguments, taking list
arguments as they are, rejecting anything else) and sends it with the
default timestamp behavior.  Returns the transport calls performed and the
raised exception's message if any. -/
def send_email_message (to_addresses : AddrParam) (subject : String) (html_text : String)
    (style : Option String) (from_address : Option String)
    (cc_addresses : Option AddrParam) (bcc_addresses : Option AddrParam)
    (now : LocalTime) : List TransportCall × Option String :=
  let msg := SmtpSender.init
  match to_addresses with
  | AddrParam.other => ([], some "Address list for To line not recognized")
  | _ =>
    let to_list := match to_addresses with
      | AddrParam.str a => pySplit a ','
      | AddrParam.list l => l
      | AddrParam.other => []
    let msg := msg.set_to_addresses to_list
    match cc_addresses with
    | some AddrParam.other => ([], some "Address list for Cc line not recognized")
    | _ =>
      let msg := match cc_addresses with
        | some (AddrParam.str a) => msg.set_cc_addresses (pySplit a ',')
        | some (AddrParam.list l) => msg.set_cc_addresses l
        | _ => msg
      match bcc_addresses with
      | some AddrParam.other => ([], some "BCC address list not recognized")
      | _ =>
        let msg := match bcc_addresses with
          | some (AddrParam.str a) => msg.set_bcc_addresses (pySplit a ',')
          | some (AddrParam.list l) => msg.set_bcc_addresses l
          | _ => msg
        let msg := match from_address with
          | some fa => { msg with sendFrom := fa }
          | none => msg
        let msg := { msg with subject := subject }
        let msg := msg.add_html_text html_text style
        let r := msg.send_email now true
        (r.transportCalls, r.error)

/-- One mutation of an `SmtpSender` through its public interface. -/
inductive BuilderOp where
  | addTo (a : String)
  | addCc (a : String)
  | addBcc (a : String)
  | setTo (l : List String)
  | setCc (l : List String)
  | setBcc (l : List String)
  | addPlain (t : String)
  | addHtml (t : String) (st : Option String)
  | attach (f : String) (content : List Nat)
  | setSubject (x : String)
  | setFrom (x : String)
  | setServer (x : String)
  deriving Repr, DecidableEq

/-- Apply one public mutation to the builder state. -/
def applyBuilderOp (s : SmtpSender) : BuilderOp → SmtpSender
  | BuilderOp.addTo a => s.add_to_line_address a
  | BuilderOp.addCc a => s.add_cc_line_address a
  | BuilderOp.addBcc a => s.add_bcc_line_address a
  | BuilderOp.setTo l => s.set_to_addresses l
  | BuilderOp.setCc l => s.set_cc_addresses l
  | BuilderOp.setBcc l => s.set_bcc_addresses l
  | BuilderOp.addPlain t => s.add_plain_text t
  | BuilderOp.addHtml t st => s.add_html_text t st
  | BuilderOp.attach f c => s.attach_file f c
  | BuilderOp.setSubject x => { s with subject := x }
  | BuilderOp.setFrom x => { s with sendFrom := x }
  | BuilderOp.setServer x => { s with smtp_server := x }

/-- The builder state reached from `SmtpSender()` by a sequence of public
mutations. -/
def buildFrom (ops : List BuilderOp) : SmtpSender :=
  ops.foldl applyBuilderOp SmtpSender.init

/-- The tokens an operation contributes to the envelope `recipients` list. -/
def opRecipientTokens : BuilderOp → List String
  | BuilderOp.addTo a => pySplit a ','
  | BuilderOp.addCc a => pySplit a ','
  | BuilderOp.addBcc a => pySplit a ','
  | BuilderOp.setTo l => l
  | BuilderOp.setCc l => l
  | BuilderOp.setBcc l => l
  | _ => []

/-- The attachment parts an operation adds to the message payload. -/
def opAttachment : BuilderOp → List MimePart
  | BuilderOp.attach f c =>
    [MimePart.application ("attachment; filename= " ++ basename f) c]
  | _ => []

/-- The plain-text fragment an operation appends, if any. -/
def plainTextArg : BuilderOp → Option String
  | BuilderOp.addPlain t => some t
  | _ => none

/-- Is this part the rendered `text/plain` body part? -/
def isPlainPart : MimePart → Bool
  | MimePart.text sub _ => sub == "plain"
  | MimePart.application _ _ => false

/-- A convenient concrete clock reading for closed instances. -/
def sampleTime : LocalTime := { year := 2026, month := 10, day := 12, hour := 9, minute := 30 }

/-! ## General helper lemmas -/

theorem stringLengthZeroIff (s : String) : s.length = 0 ↔ s = "" := by
  constructor
  · intro h
    cases s with
    | mk d =>
      cases d with
      | nil => rfl
      | cons c cs => exact absurd h (by simp [String.length])
  · intro h
    subst h
    rfl

theorem digitChar_mod_isDigit (n : Nat) : (digitChar (n % 10)).isDigit = true := by
  have h : ∀ k, k < 10 → (digitChar k).isDigit = true := by decide
  exact h _ (Nat.mod_lt _ (by norm_num))

theorem timeStrftime_toList (y mo d h mi : Nat) :
    (timeStrftime { year := y, month := mo, day := d, hour := h, minute := mi }).toList =
      [digitChar (y / 1000 % 10), digitChar (y / 100 % 10), digitChar (y / 10 % 10),
       digitChar (y % 10), '-', digitChar (mo / 10 % 10), digitChar (mo % 10), '-',
       digitChar (d / 10 % 10), digitChar (d % 10), ' ', digitChar (h / 10 % 10),
       digitChar (h % 10), ':', digitChar (mi / 10 % 10), digitChar (mi % 10)] := rfl

theorem timeStrftime_matchesPattern (t : LocalTime) :
    matchesTimestampPattern (timeStrftime t) = true := by
  obtain ⟨y, mo, d, h, mi⟩ := t
  rw [matchesTimestampPattern, timeStrftime_toList]
  simp [digitChar_mod_isDigit]

/-! ## The success branch of `send_email` -/

/-- The rendered message a successful `send_email` builds (used only to state
the lemmas below; `send_email` itself is the model of the code). -/
def sentMessage (s : SmtpSender) (now : LocalTime) (e : Bool) : SMTPMessage :=
  { headers := s.smtp_message.headers
      ++ [("Subject", if e then s.subject ++ " " ++ timeStrftime now else s.subject),
          ("From", s.sendFrom), ("To", String.intercalate "," s.to_addresses)]
      ++ (if s.cc_addresses.length > 0
          then [("Cc", String.intercalate "," s.cc_addresses)] else [])
    payload := s.smtp_message.payload
      ++ (if s.text_parts.length > 0
          then [MimePart.text "plain" (String.intercalate "\n" s.text_parts)] else [])
      ++ (if s.html_parts.length > 0
          then [MimePart.text "html" (s.html_header ++ "<BR>" ++ String.join s.html_parts)]
          else []) }

theorem send_email_ok (s : SmtpSender) (now : LocalTime) (e : Bool)
    (h1 : s.to_addresses.length ≠ 0) (h2 : s.sendFrom.length ≠ 0)
    (h3 : s.smtp_server.length ≠ 0) :
    s.send_email now e =
      { state := { s with
          subject := if e then s.subject ++ " " ++ timeStrftime now else s.subject,
          smtp_message := sentMessage s now e }
        transportCalls := [{ envelopeFrom := s.sendFrom, envelopeRecipients := s.recipients,
                             message := sentMessage s now e }]
        error := none } := by
  rw [SmtpSender.send_email, if_neg h1, if_neg h2, if_neg h3]
  rfl

/-! ## Effect of the public mutations on the builder state -/

theorem applyBuilderOp_recipients (s : SmtpSender) (op : BuilderOp) :
    (applyBuilderOp s op).recipients = s.recipients ++ opRecipientTokens op := by
  cases op <;>
    simp [applyBuilderOp, opRecipientTokens, SmtpSender.add_to_line_address,
      SmtpSender.add_cc_line_address, SmtpSender.add_bcc_line_address,
      SmtpSender.set_to_addresses, SmtpSender.set_cc_addresses, SmtpSender.set_bcc_addresses,
      SmtpSender.add_plain_text, SmtpSender.add_html_text, SmtpSender.attach_file]

theorem applyBuilderOp_headers (s : SmtpSender) (op : BuilderOp) :
    (applyBuilderOp s op).smtp_message.headers = s.smtp_message.headers := by
  cases op <;>
    simp [applyBuilderOp, SmtpSender.add_to_line_address, SmtpSender.add_cc_line_address,
      SmtpSender.add_bcc_line_address, SmtpSender.set_to_addresses,
      SmtpSender.set_cc_addresses, SmtpSender.set_bcc_addresses, SmtpSender.add_plain_text,
      SmtpSender.add_html_text, SmtpSender.attach_file]

theorem applyBuilderOp_payload (s : SmtpSender) (op : BuilderOp) :
    (applyBuilderOp s op).smtp_message.payload = s.smtp_message.payload ++ opAttachment op := by
  cases op <;>
    simp [applyBuilderOp, opAttachment, SmtpSender.add_to_line_address,
      SmtpSender.add_cc_line_address, SmtpSender.add_bcc_line_address,
      SmtpSender.set_to_addresses, SmtpSender.set_cc_addresses, SmtpSender.set_bcc_addresses,
      SmtpSender.add_plain_text, SmtpSender.add_html_text, SmtpSender.attach_file]

theorem applyBuilderOp_text_parts (s : SmtpSender) (op : BuilderOp) :
    (applyBuilderOp s op).text_parts
      = s.text_parts ++ (plainTextArg op).toList := by
  cases op <;>
    simp [applyBuilderOp, plainTextArg, SmtpSender.add_to_line_address,
      SmtpSender.add_cc_line_address, SmtpSender.add_bcc_line_address,
      SmtpSender.set_to_addresses, SmtpSender.set_cc_addresses, SmtpSender.set_bcc_addresses,
      SmtpSender.add_plain_text, SmtpSender.add_html_text, SmtpSender.attach_file]

theorem applyBuilderOp_bcc_sub (s : SmtpSender) (op : BuilderOp)
    (h : ∀ a ∈ s.bcc_addresses, a ∈ s.recipients) :
    ∀ a ∈ (applyBuilderOp s op).bcc_addresses, a ∈ (applyBuilderOp s op).recipients := by
  cases op <;>
    simp only [applyBuilderOp, SmtpSender.add_to_line_address,
      SmtpSender.add_cc_line_address, SmtpSender.add_bcc_line_address,
      SmtpSender.set_to_addresses, SmtpSender.set_cc_addresses, SmtpSender.set_bcc_addresses,
      SmtpSender.add_plain_text, SmtpSender.add_html_text, SmtpSender.attach_file,
      List.mem_append] <;>
    intro a ha <;>
    first
      | (exact Or.inl (h a ha))
      | (rcases ha with ha | ha
         · exact Or.inl (h a ha)
         · exact Or.inr ha)
      | (exact Or.inr ha)
      | (exact h a ha)

theorem buildFrom_recipients_from (ops : List BuilderOp) :
    ∀ s : SmtpSender, (ops.foldl applyBuilderOp s).recipients
      = s.recipients ++ (ops.map opRecipientTokens).flatten := by
  induction ops with
  | nil => intro s; simp
  | cons op rest ih =>
    intro s
    simp only [List.foldl_cons, List.map_cons, List.flatten_cons, ih, applyBuilderOp_recipients,
      List.append_assoc]

theorem buildFrom_headers (ops : List BuilderOp) :
    ∀ s : SmtpSender, (ops.foldl applyBuilderOp s).smtp_message.headers
      = s.smtp_message.headers := by
  induction ops with
  | nil => intro s; rfl
  | cons op rest ih =>
    intro s
    rw [List.foldl_cons, ih, applyBuilderOp_headers]

theorem buildFrom_payload_from (ops : List BuilderOp) :
    ∀ s : SmtpSender, (ops.foldl applyBuilderOp s).smtp_message.payload
      = s.smtp_message.payload ++ (ops.map opAttachment).flatten := by
  induction ops with
  | nil => intro s; simp
  | cons op rest ih =>
    intro s
    simp only [List.foldl_cons, List.map_cons, List.flatten_cons, ih, applyBuilderOp_payload,
      List.append_assoc]

theorem buildFrom_text_parts_from (ops : List BuilderOp) :
    ∀ s : SmtpSender, (ops.foldl applyBuilderOp s).text_parts
      = s.text_parts ++ ops.filterMap plainTextArg := by
  induction ops with
  | nil => intro s; simp
  | cons op rest ih =>
    intro s
    rw [List.foldl_cons, ih, applyBuilderOp_text_parts]
    cases op <;> simp [plainTextArg]

theorem buildFrom_bcc_sub (ops : List BuilderOp) :
    ∀ s : SmtpSender, (∀ a ∈ s.bcc_addresses, a ∈ s.recipients) →
      ∀ a ∈ (ops.foldl applyBuilderOp s).bcc_addresses,
        a ∈ (ops.foldl applyBuilderOp s).recipients := by
  induction ops with
  | nil => intro s h; exact h
  | cons op rest ih =>
    intro s h
    exact ih _ (applyBuilderOp_bcc_sub s op h)

/-! ## Sequences of `add_html_text` calls -/

/-- Apply a sequence of `add_html_text` calls (fragment, optional style). -/
def applyHtmlCalls (s : SmtpSender) (calls : List (String × Option String)) : SmtpSender :=
  calls.foldl (fun st c => st.add_html_text c.1 c.2) s

theorem add_html_text_fields (s : SmtpSender) (h : String) (st : Option String) :
    (s.add_html_text h st).to_addresses = s.to_addresses
    ∧ (s.add_html_text h st).cc_addresses = s.cc_addresses
    ∧ (s.add_html_text h st).sendFrom = s.sendFrom
    ∧ (s.add_html_text h st).smtp_server = s.smtp_server
    ∧ (s.add_html_text h st).text_parts = s.text_parts
    ∧ (s.add_html_text h st).smtp_message = s.smtp_message
    ∧ (s.add_html_text h st).recipients = s.recipients := by
  simp [SmtpSender.add_html_text]

theorem applyHtmlCalls_fields (calls : List (String × Option String)) :
    ∀ s : SmtpSender,
      (applyHtmlCalls s calls).to_addresses = s.to_addresses
      ∧ (applyHtmlCalls s calls).cc_addresses = s.cc_addresses
      ∧ (applyHtmlCalls s calls).sendFrom = s.sendFrom
      ∧ (applyHtmlCalls s calls).smtp_server = s.smtp_server
      ∧ (applyHtmlCalls s calls).text_parts = s.text_parts
      ∧ (applyHtmlCalls s calls).smtp_message = s.smtp_message
      ∧ (applyHtmlCalls s calls).recipients = s.recipients := by
  induction calls with
  | nil => intro s; exact ⟨rfl, rfl, rfl, rfl, rfl, rfl, rfl⟩
  | cons c rest ih =>
    intro s
    have hstep := add_html_text_fields s c.1 c.2
    have hrest := ih (s.add_html_text c.1 c.2)
    simp only [applyHtmlCalls, List.foldl_cons] at *
    exact ⟨hrest.1.trans hstep.1,
           hrest.2.1.trans hstep.2.1,
           hrest.2.2.1.trans hstep.2.2.1,
           hrest.2.2.2.1.trans hstep.2.2.2.1,
           hrest.2.2.2.2.1.trans hstep.2.2.2.2.1,
           hrest.2.2.2.2.2.1.trans hstep.2.2.2.2.2.1,
           hrest.2.2.2.2.2.2.trans hstep.2.2.2.2.2.2⟩

theorem add_html_text_frozen (s : SmtpSender) (h : String) (st : Option String)
    (hne : s.html_header ≠ "") :
    (s.add_html_text h st).html_header = s.html_header
    ∧ (s.add_html_text h st).html_parts = s.html_parts ++ [h] := by
  have hlen : s.html_header.length ≠ 0 := fun hl => hne ((stringLengthZeroIff _).mp hl)
  simp [SmtpSender.add_html_text, if_neg hlen]

theorem applyHtmlCalls_frozen (calls : List (String × Option String)) :
    ∀ s : SmtpSender, s.html_header ≠ "" →
      (applyHtmlCalls s calls).html_header = s.html_header
      ∧ (applyHtmlCalls s calls).html_parts = s.html_parts ++ calls.map Prod.fst := by
  induction calls with
  | nil => intro s _; simp [applyHtmlCalls]
  | cons c rest ih =>
    intro s hne
    have hstep := add_html_text_frozen s c.1 c.2 hne
    have hrest := ih (s.add_html_text c.1 c.2) (by rw [hstep.1]; exact hne)
    simp only [applyHtmlCalls, List.foldl_cons] at *
    refine ⟨hrest.1.trans hstep.1, ?_⟩
    rw [hrest.2, hstep.2]
    simp

theorem add_html_text_capture (s : SmtpSender) (h : String) (st : Option String)
    (hempty : s.html_header = "") :
    (s.add_html_text h st).html_header
      = (st.getD SmtpSender.template_html_header)
    ∧ (s.add_html_text h st).html_parts = s.html_parts ++ [h] := by
  have hlen : s.html_header.length = 0 := (stringLengthZeroIff _).mpr hempty
  simp only [SmtpSender.add_html_text, if_pos hlen]
  cases st <;> simp [Option.getD]

theorem template_html_header_ne_empty : SmtpSender.template_html_header ≠ "" := by
  decide

/-! ## The validation branches of `send_email` -/

theorem send_email_err_to (s : SmtpSender) (now : LocalTime) (e : Bool)
    (h : s.to_addresses.length = 0) :
    s.send_email now e =
      { state := s, transportCalls := []
        error := some "An SMTP message must have a To: line address to be sent." } := by
  rw [SmtpSender.send_email, if_pos h]

theorem send_email_err_from (s : SmtpSender) (now : LocalTime) (e : Bool)
    (h1 : s.to_addresses.length ≠ 0) (h2 : s.sendFrom.length = 0) :
    s.send_email now e =
      { state := s, transportCalls := []
        error := some "An SMTP message must have a From: line address to be sent." } := by
  rw [SmtpSender.send_email, if_neg h1, if_pos h2]

theorem send_email_err_server (s : SmtpSender) (now : LocalTime) (e : Bool)
    (h1 : s.to_addresses.length ≠ 0) (h2 : s.sendFrom.length ≠ 0)
    (h3 : s.smtp_server.length = 0) :
    s.send_email now e =
      { state := s, transportCalls := []
        error := some "An SMTP message must have an SMTP host address to be sent." } := by
  rw [SmtpSender.send_email, if_neg h1, if_neg h2, if_pos h3]

/-- C5: `send` raises a ValidationError exactly when `toAddresses` is empty,
`sendFrom` is empty, or `smtpServer` is empty, with a distinct error message
per missing field, and in every such case performs no transport call. -/
theorem claim_c5 (s : SmtpSender) (now : LocalTime) (e : Bool) :
    ((s.send_email now e).error.isSome
        ↔ (s.to_addresses = [] ∨ s.sendFrom = "" ∨ s.smtp_server = ""))
    ∧ ((s.send_email now e).error.isSome → (s.send_email now e).transportCalls = [])
    ∧ (s.to_addresses = [] →
        (s.send_email now e).error
          = some "An SMTP message must have a To: line address to be sent.")
    ∧ (s.to_addresses ≠ [] → s.sendFrom = "" →
        (s.send_email now e).error
          = some "An SMTP message must have a From: line address to be sent.")
    ∧ (s.to_addresses ≠ [] → s.sendFrom ≠ "" → s.smtp_server = "" →
        (s.send_email now e).error
          = some "An SMTP message must have an SMTP host address to be sent.")
    ∧ (("An SMTP message must have a To: line address to be sent." : String)
          ≠ "An SMTP message must have a From: line address to be sent."
        ∧ ("An SMTP message must have a To: line address to be sent." : String)
          ≠ "An SMTP message must have an SMTP host address to be sent."
        ∧ ("An SMTP message must have a From: line address to be sent." : String)
          ≠ "An SMTP message must have an SMTP host address to be sent.") := by
  by_cases h1 : s.to_addresses.length = 0
  · have hto : s.to_addresses = [] := List.length_eq_zero.mp h1
    rw [send_email_err_to s now e h1]
    refine ⟨by simp [hto], fun _ => rfl, fun _ => rfl, ?_, ?_, by decide⟩
    · intro hne _; exact absurd hto hne
    · intro hne _ _; exact absurd hto hne
  · have hto : s.to_addresses ≠ [] := fun hl => h1 (by simp [hl])
    by_cases h2 : s.sendFrom.length = 0
    · have hfrom : s.sendFrom = "" := (stringLengthZeroIff _).mp h2
      rw [send_email_err_from s now e h1 h2]
      refine ⟨by simp [hfrom], fun _ => rfl, ?_, fun _ _ => rfl, ?_, by decide⟩
      · intro h; exact absurd h hto
      · intro _ hne _; exact absurd hfrom hne
    · have hfrom : s.sendFrom ≠ "" := fun hl => h2 ((stringLengthZeroIff _).mpr hl)
      by_cases h3 : s.smtp_server.length = 0
      · have hsrv : s.smtp_server = "" := (stringLengthZeroIff _).mp h3
        rw [send_email_err_server s now e h1 h2 h3]
        refine ⟨by simp [hsrv], fun _ => rfl, ?_, ?_, fun _ _ _ => rfl, by decide⟩
        · intro h; exact absurd h hto
        · intro _ h; exact absurd h hfrom
      · have hsrv : s.smtp_server ≠ "" := fun hl => h3 ((stringLengthZeroIff _).mpr hl)
        rw [send_email_ok s now e h1 h2 h3]
        refine ⟨by simp [hto, hfrom, hsrv], by simp, ?_, ?_, ?_, by decide⟩
        · intro h; exact absurd h hto
        · intro _ h; exact absurd h hfrom
        · intro _ _ h; exact absurd h hsrv

theorem claim_c5_witness :
    (SmtpSender.init.send_email sampleTime true).error
        = some "An SMTP message must have a To: line address to be sent."
    ∧ (SmtpSender.init.send_email sampleTime true).transportCalls = [] := by
  refine ⟨(claim_c5 SmtpSender.init sampleTime true).2.2.1 rfl, ?_⟩
  exact (claim_c5 SmtpSender.init sampleTime true).2.1 (by decide)

/-- C9: when `send` raises a ValidationError, the builder state is entirely
unchanged — in particular the subject carries no appended timestamp and no
`Subject`/`From`/`To`/`Cc` header has been set on the message — and no
transport call is made. -/
theorem claim_c9 (s : SmtpSender) (now : LocalTime) (e : Bool)
    (h : (s.send_email now e).error.isSome) :
    (s.send_email now e).state = s
    ∧ (s.send_email now e).state.subject = s.subject
    ∧ (s.send_email now e).state.smtp_message = s.smtp_message
    ∧ (s.send_email now e).transportCalls = [] := by
  by_cases h1 : s.to_addresses.length = 0
  · rw [send_email_err_to s now e h1]; exact ⟨rfl, rfl, rfl, rfl⟩
  · by_cases h2 : s.sendFrom.length = 0
    · rw [send_email_err_from s now e h1 h2]; exact ⟨rfl, rfl, rfl, rfl⟩
    · by_cases h3 : s.smtp_server.length = 0
      · rw [send_email_err_server s now e h1 h2 h3]; exact ⟨rfl, rfl, rfl, rfl⟩
      · rw [send_email_ok s now e h1 h2 h3] at h; simp at h

theorem claim_c9_witness :
    (SmtpSender.init.send_email sampleTime true).state = SmtpSender.init
    ∧ (SmtpSender.init.send_email sampleTime true).state.subject = SmtpSender.init.subject := by
  have h := claim_c9 SmtpSender.init sampleTime true (by decide)
  exact ⟨h.1, h.2.1⟩

/-- C10: adding the empty string as a To (resp. Cc, Bcc) address appends
exactly one empty-string token to the respective list and to `recipients`
(splitting `""` on comma yields one empty token), so `toAddresses` becomes
non-empty and a subsequent `send` passes the To-line validation. -/
theorem claim_c10 (s : SmtpSender) (now : LocalTime) (e : Bool) :
    (s.add_to_line_address "").to_addresses = s.to_addresses ++ [""]
    ∧ (s.add_to_line_address "").recipients = s.recipients ++ [""]
    ∧ (s.add_cc_line_address "").cc_addresses = s.cc_addresses ++ [""]
    ∧ (s.add_cc_line_address "").recipients = s.recipients ++ [""]
    ∧ (s.add_bcc_line_address "").bcc_addresses = s.bcc_addresses ++ [""]
    ∧ (s.add_bcc_line_address "").recipients = s.recipients ++ [""]
    ∧ (s.add_to_line_address "").to_addresses ≠ []
    ∧ ((s.add_to_line_address "").send_email now e).error
        ≠ some "An SMTP message must have a To: line address to be sent." := by
  have hsplit : pySplit "" ',' = [""] := rfl
  refine ⟨by simp [SmtpSender.add_to_line_address, hsplit],
          by simp [SmtpSender.add_to_line_address, hsplit],
          by simp [SmtpSender.add_cc_line_address, hsplit],
          by simp [SmtpSender.add_cc_line_address, hsplit],
          by simp [SmtpSender.add_bcc_line_address, hsplit],
          by simp [SmtpSender.add_bcc_line_address, hsplit],
          by simp [SmtpSender.add_to_line_address, hsplit], ?_⟩
  set s2 := s.add_to_line_address "" with hs2
  have h1 : s2.to_addresses.length ≠ 0 := by
    rw [hs2]
    simp [SmtpSender.add_to_line_address, hsplit]
  by_cases h2 : s2.sendFrom.length = 0
  · rw [send_email_err_from s2 now e h1 h2]
    simp
  · by_cases h3 : s2.smtp_server.length = 0
    · rw [send_email_err_server s2 now e h1 h2 h3]
      simp
    · rw [send_email_ok s2 now e h1 h2 h3]
      simp

/-! ## Subject timestamping -/

theorem send_email_state_subject (s : SmtpSender) (now : LocalTime) (e : Bool)
    (h1 : s.to_addresses.length ≠ 0) (h2 : s.sendFrom.length ≠ 0)
    (h3 : s.smtp_server.length ≠ 0) :
    (s.send_email now e).state.subject
      = if e then s.subject ++ " " ++ timeStrftime now else s.subject := by
  rw [send_email_ok s now e h1 h2 h3]

theorem send_email_state_validation_fields (s : SmtpSender) (now : LocalTime) (e : Bool)
    (h1 : s.to_addresses.length ≠ 0) (h2 : s.sendFrom.length ≠ 0)
    (h3 : s.smtp_server.length ≠ 0) :
    (s.send_email now e).state.to_addresses = s.to_addresses
    ∧ (s.send_email now e).state.sendFrom = s.sendFrom
    ∧ (s.send_email now e).state.smtp_server = s.smtp_server := by
  rw [send_email_ok s now e h1 h2 h3]
  exact ⟨rfl, rfl, rfl⟩

/-- C6: on a builder passing validation, `send` with
`enableSubjectTimestamp=true` mutates `subject` in place to the original
subject, a space, and the current local timestamp formatted
`YYYY-MM-DD HH:MM`, so a repeated send re-appends another timestamp; with
`enableSubjectTimestamp=false` the subject is left unchanged. -/
theorem claim_c6 (s : SmtpSender) (t1 t2 : LocalTime)
    (h1 : s.to_addresses ≠ []) (h2 : s.sendFrom ≠ "") (h3 : s.smtp_server ≠ "") :
    ((s.send_email t1 true).state.subject = s.subject ++ " " ++ timeStrftime t1)
    ∧ ((s.send_email t1 false).state.subject = s.subject)
    ∧ (((s.send_email t1 true).state.send_email t2 true).state.subject
        = s.subject ++ " " ++ timeStrftime t1 ++ " " ++ timeStrftime t2)
    ∧ matchesTimestampPattern (timeStrftime t1) = true := by
  have h1' : s.to_addresses.length ≠ 0 := fun hl => h1 (List.length_eq_zero.mp hl)
  have h2' : s.sendFrom.length ≠ 0 := fun hl => h2 ((stringLengthZeroIff _).mp hl)
  have h3' : s.smtp_server.length ≠ 0 := fun hl => h3 ((stringLengthZeroIff _).mp hl)
  have hf := send_email_state_validation_fields s t1 true h1' h2' h3'
  have h1'' : (s.send_email t1 true).state.to_addresses.length ≠ 0 := by
    rw [hf.1]; exact h1'
  have h2'' : (s.send_email t1 true).state.sendFrom.length ≠ 0 := by
    rw [hf.2.1]; exact h2'
  have h3'' : (s.send_email t1 true).state.smtp_server.length ≠ 0 := by
    rw [hf.2.2]; exact h3'
  refine ⟨?_, ?_, ?_, timeStrftime_matchesPattern t1⟩
  · rw [send_email_state_subject s t1 true h1' h2' h3']; rfl
  · rw [send_email_state_subject s t1 false h1' h2' h3']; rfl
  · rw [send_email_state_subject _ t2 true h1'' h2'' h3'',
      send_email_state_subject s t1 true h1' h2' h3']
    rfl

theorem claim_c6_witness :
    ((SmtpSender.init.add_to_line_address "a@x").send_email sampleTime true).state.subject
        = "" ++ " " ++ timeStrftime sampleTime
    ∧ matchesTimestampPattern (timeStrftime sampleTime) = true := by
  have h := claim_c6 (SmtpSender.init.add_to_line_address "a@x") sampleTime sampleTime
    (by decide) (by decide) (by decide)
  exact ⟨h.1, h.2.2.2⟩

/-! ## The recipients accumulator -/

/-- C3: over any interleaved sequence of To/Cc/Bcc add calls (each appending
the comma-split tokens of its argument) and To/Cc/Bcc bulk-set assignments
(each replacing its own list wholesale but appending the new list to
`recipients`), the `recipients` list is the concatenation, in operation
order, of all tokens contributed, duplicates retained; no operation removes
an entry. -/
theorem claim_c3 :
    (∀ (s : SmtpSender) (op : BuilderOp),
        (applyBuilderOp s op).recipients = s.recipients ++ opRecipientTokens op)
    ∧ (∀ (s : SmtpSender) (l : List String),
        (s.set_to_addresses l).to_addresses = l
        ∧ (s.set_cc_addresses l).cc_addresses = l
        ∧ (s.set_bcc_addresses l).bcc_addresses = l)
    ∧ (∀ ops : List BuilderOp,
        (buildFrom ops).recipients = (ops.map opRecipientTokens).flatten) := by
  refine ⟨applyBuilderOp_recipients, fun s l => ⟨rfl, rfl, rfl⟩, fun ops => ?_⟩
  rw [buildFrom, buildFrom_recipients_from]
  rfl

/-! ## The plain-text body part -/

theorem opAttachment_no_plain (op : BuilderOp) :
    ∀ p ∈ opAttachment op, isPlainPart p = false := by
  cases op <;> simp [opAttachment, isPlainPart]

theorem buildFrom_payload_no_plain (ops : List BuilderOp) :
    (buildFrom ops).smtp_message.payload.filter isPlainPart = [] := by
  rw [buildFrom, buildFrom_payload_from]
  have : SmtpSender.init.smtp_message.payload = [] := rfl
  rw [this, List.nil_append, List.filter_eq_nil_iff]
  intro p hp
  rw [List.mem_flatten] at hp
  obtain ⟨l, hl, hpl⟩ := hp
  rw [List.mem_map] at hl
  obtain ⟨op, _, rfl⟩ := hl
  simp [opAttachment_no_plain op p hpl]

/-- C7: for every non-empty sequence of `addPlainText` calls with fragments
`t1..tn`, `send` renders exactly one plain-text body part whose content is
the fragments joined with a newline in call order; when `textParts` is
empty, no plain-text part is rendered. -/
theorem claim_c7 (ops : List BuilderOp) (now : LocalTime) (e : Bool)
    (h1 : (buildFrom ops).to_addresses ≠ [])
    (h2 : (buildFrom ops).sendFrom ≠ "")
    (h3 : (buildFrom ops).smtp_server ≠ "") :
    ((buildFrom ops).text_parts = ops.filterMap plainTextArg)
    ∧ ((buildFrom ops).text_parts ≠ [] →
        (((buildFrom ops).send_email now e).state.smtp_message.payload.filter isPlainPart)
          = [MimePart.text "plain" (String.intercalate "\n" (buildFrom ops).text_parts)])
    ∧ ((buildFrom ops).text_parts = [] →
        (((buildFrom ops).send_email now e).state.smtp_message.payload.filter isPlainPart)
          = []) := by
  have h1' : (buildFrom ops).to_addresses.length ≠ 0 :=
    fun hl => h1 (List.length_eq_zero.mp hl)
  have h2' : (buildFrom ops).sendFrom.length ≠ 0 :=
    fun hl => h2 ((stringLengthZeroIff _).mp hl)
  have h3' : (buildFrom ops).smtp_server.length ≠ 0 :=
    fun hl => h3 ((stringLengthZeroIff _).mp hl)
  refine ⟨?_, ?_, ?_⟩
  · have h := buildFrom_text_parts_from ops SmtpSender.init
    rw [buildFrom, h]
    rfl
  · intro ht
    rw [send_email_ok _ now e h1' h2' h3']
    have hpos : (buildFrom ops).text_parts.length > 0 := List.length_pos.mpr ht
    by_cases hH : (buildFrom ops).html_parts.length > 0 <;>
      simp [sentMessage, List.filter_append, buildFrom_payload_no_plain, if_pos hpos, hH,
        isPlainPart]
  · intro ht
    have hzero : ¬ ((buildFrom ops).text_parts.length > 0) := by simp [ht]
    rw [send_email_ok _ now e h1' h2' h3']
    by_cases hH : (buildFrom ops).html_parts.length > 0 <;>
      simp [sentMessage, List.filter_append, buildFrom_payload_no_plain, if_neg hzero, hH,
        isPlainPart]

theorem claim_c7_witness :
    (((buildFrom [BuilderOp.addTo "a@x", BuilderOp.addPlain "A", BuilderOp.addPlain "B"]
          ).send_email sampleTime false).state.smtp_message.payload.filter isPlainPart)
      = [MimePart.text "plain" "A\nB"] := by
  have h := (claim_c7 [BuilderOp.addTo "a@x", BuilderOp.addPlain "A", BuilderOp.addPlain "B"]
    sampleTime false (by decide) (by decide) (by decide)).2.1 (by decide)
  rw [h]
  decide

/-! ## Header-level BCC suppression -/

/-- C4: no matter how many BCC addresses were added, the rendered message
headers never contain a `Bcc` field (`To` is the comma-join of
`toAddresses`; `Cc` is the comma-join of `ccAddresses` and is present only
when `ccAddresses` is non-empty), while the envelope recipient list passed
to the transport includes every BCC address. -/
theorem claim_c4 (ops : List BuilderOp) (now : LocalTime) (e : Bool)
    (h1 : (buildFrom ops).to_addresses ≠ [])
    (h2 : (buildFrom ops).sendFrom ≠ "")
    (h3 : (buildFrom ops).smtp_server ≠ "") :
    (∀ p ∈ ((buildFrom ops).send_email now e).state.smtp_message.headers, p.1 ≠ "Bcc")
    ∧ (("To", String.intercalate "," (buildFrom ops).to_addresses)
        ∈ ((buildFrom ops).send_email now e).state.smtp_message.headers)
    ∧ ((buildFrom ops).cc_addresses ≠ [] →
        ("Cc", String.intercalate "," (buildFrom ops).cc_addresses)
          ∈ ((buildFrom ops).send_email now e).state.smtp_message.headers)
    ∧ ((buildFrom ops).cc_addresses = [] →
        ∀ p ∈ ((buildFrom ops).send_email now e).state.smtp_message.headers, p.1 ≠ "Cc")
    ∧ (∃ c : TransportCall,
        ((buildFrom ops).send_email now e).transportCalls = [c]
        ∧ c.message = ((buildFrom ops).send_email now e).state.smtp_message
        ∧ ∀ a ∈ (buildFrom ops).bcc_addresses, a ∈ c.envelopeRecipients) := by
  have h1' : (buildFrom ops).to_addresses.length ≠ 0 :=
    fun hl => h1 (List.length_eq_zero.mp hl)
  have h2' : (buildFrom ops).sendFrom.length ≠ 0 :=
    fun hl => h2 ((stringLengthZeroIff _).mp hl)
  have h3' : (buildFrom ops).smtp_server.length ≠ 0 :=
    fun hl => h3 ((stringLengthZeroIff _).mp hl)
  have hinit : (buildFrom ops).smtp_message.headers = SmtpSender.initialHeaders := by
    rw [buildFrom, buildFrom_headers]
    rfl
  rw [send_email_ok _ now e h1' h2' h3']
  refine ⟨?_, ?_, ?_, ?_, ?_⟩
  · intro p hp
    rw [sentMessage, hinit] at hp
    by_cases hcc : (buildFrom ops).cc_addresses.length > 0
    · rw [if_pos hcc] at hp
      simp only [SmtpSender.initialHeaders, List.mem_append, List.mem_cons,
        List.not_mem_nil, or_false] at hp
      rcases hp with ((rfl | rfl) | (rfl | rfl | rfl)) | rfl <;> simp
    · rw [if_neg hcc] at hp
      simp only [SmtpSender.initialHeaders, List.append_nil, List.mem_append, List.mem_cons,
        List.not_mem_nil, or_false] at hp
      rcases hp with (rfl | rfl) | (rfl | rfl | rfl) <;> simp
  · rw [sentMessage]
    simp
  · intro hcc
    have hpos : (buildFrom ops).cc_addresses.length > 0 := List.length_pos.mpr hcc
    rw [sentMessage]
    simp [if_pos hpos]
  · intro hcc p hp
    have hzero : ¬ ((buildFrom ops).cc_addresses.length > 0) := by simp [hcc]
    rw [sentMessage, hinit, if_neg hzero] at hp
    simp only [SmtpSender.initialHeaders, List.append_nil, List.mem_append, List.mem_cons,
      List.not_mem_nil, or_false] at hp
    rcases hp with (rfl | rfl) | (rfl | rfl | rfl) <;> simp
  · refine ⟨_, rfl, rfl, ?_⟩
    intro a ha
    have hsub := buildFrom_bcc_sub ops SmtpSender.init (by intro a h; exact absurd h (by simp [SmtpSender.init]))
    exact hsub a ha

theorem claim_c4_witness :
    ∃ c : TransportCall,
      ((buildFrom [BuilderOp.addTo "a@x", BuilderOp.addBcc "b@y"]).send_email sampleTime
          false).transportCalls = [c]
      ∧ c.message = ((buildFrom [BuilderOp.addTo "a@x", BuilderOp.addBcc "b@y"]).send_email
          sampleTime false).state.smtp_message
      ∧ ∀ a ∈ (buildFrom [BuilderOp.addTo "a@x", BuilderOp.addBcc "b@y"]).bcc_addresses,
          a ∈ c.envelopeRecipients := by
  exact (claim_c4 [BuilderOp.addTo "a@x", BuilderOp.addBcc "b@y"] sampleTime false
    (by decide) (by decide) (by decide)).2.2.2.2

/-! ## Part order in the rendered document -/

/-- C1 as stated is false: `attach_file` attaches the file part to
`_smtp_message` immediately when called, while `send_email` attaches the
text and HTML parts only at send time, so an attachment attached before
`send` precedes the body parts in the payload.  Concretely: one plain
fragment, one HTML fragment and one attachment yield the order
[attachment, text, html], not [text, html, attachment]. -/
theorem claim_c1_counterexample :
    (((((SmtpSender.init.add_to_line_address "a@x").add_plain_text "A").add_html_text
          "<p>hi</p>" (some "S")).attach_file "f.bin" [7]).send_email sampleTime
        false).state.smtp_message.payload
      ≠ [MimePart.text "plain" "A", MimePart.text "html" "S<BR><p>hi</p>",
         MimePart.application "attachment; filename= f.bin" [7]]
    ∧ (((((SmtpSender.init.add_to_line_address "a@x").add_plain_text "A").add_html_text
          "<p>hi</p>" (some "S")).attach_file "f.bin" [7]).send_email sampleTime
        false).state.smtp_message.payload
      = [MimePart.application "attachment; filename= f.bin" [7],
         MimePart.text "plain" "A", MimePart.text "html" "S<BR><p>hi</p>"] := by
  refine ⟨?_, ?_⟩ <;> decide

/-- C1 amended: in the serialized multipart/alternative document produced by
`send`, the parts appear in the order: every file attachment first, in
`attachFile` call order, then the plain-text part (if `textParts` is
non-empty), then the HTML part (if `htmlParts` is non-empty). -/
theorem claim_c1_amended (ops : List BuilderOp) (now : LocalTime) (e : Bool)
    (h1 : (buildFrom ops).to_addresses ≠ [])
    (h2 : (buildFrom ops).sendFrom ≠ "")
    (h3 : (buildFrom ops).smtp_server ≠ "") :
    ((buildFrom ops).send_email now e).state.smtp_message.payload
      = (ops.map opAttachment).flatten
        ++ (if (buildFrom ops).text_parts.length > 0
            then [MimePart.text "plain" (String.intercalate "\n" (buildFrom ops).text_parts)]
            else [])
        ++ (if (buildFrom ops).html_parts.length > 0
            then [MimePart.text "html" ((buildFrom ops).html_header ++ "<BR>"
                  ++ String.join (buildFrom ops).html_parts)]
            else []) := by
  have h1' : (buildFrom ops).to_addresses.length ≠ 0 :=
    fun hl => h1 (List.length_eq_zero.mp hl)
  have h2' : (buildFrom ops).sendFrom.length ≠ 0 :=
    fun hl => h2 ((stringLengthZeroIff _).mp hl)
  have h3' : (buildFrom ops).smtp_server.length ≠ 0 :=
    fun hl => h3 ((stringLengthZeroIff _).mp hl)
  have hpayload : (buildFrom ops).smtp_message.payload = (ops.map opAttachment).flatten := by
    rw [buildFrom, buildFrom_payload_from]
    rfl
  rw [send_email_ok _ now e h1' h2' h3', sentMessage, hpayload]

theorem claim_c1_amended_witness :
    ((buildFrom [BuilderOp.addTo "a@x", BuilderOp.addPlain "A",
        BuilderOp.addHtml "<p>hi</p>" (some "S"), BuilderOp.attach "f.bin" [7]]).send_email
        sampleTime false).state.smtp_message.payload
      = [MimePart.application "attachment; filename= f.bin" [7],
         MimePart.text "plain" "A", MimePart.text "html" "S<BR><p>hi</p>"] := by
  have h := claim_c1_amended [BuilderOp.addTo "a@x", BuilderOp.addPlain "A",
    BuilderOp.addHtml "<p>hi</p>" (some "S"), BuilderOp.attach "f.bin" [7]]
    sampleTime false (by decide) (by decide) (by decide)
  rw [h]
  decide

/-! ## Stylesheet header capture -/

/-- C2 as stated is false: the header capture re-runs whenever
`_html_header` is still empty, and a first call passing the empty string as
its style leaves it empty, so a subsequent call does change the header. -/
theorem claim_c2_counterexample :
    ((SmtpSender.init.add_html_text "a" (some "")).add_html_text "b"
        (some "X")).html_header
      ≠ (SmtpSender.init.add_html_text "a" (some "")).html_header := by
  decide

/-- C2 amended: provided the first `add_html_text` call does not pass the
empty string as its style, the HTML stylesheet header is captured on the
first call (the passed style, or the built-in default stylesheet when no
style is given) and cannot be changed by any subsequent `add_html_text`
call; the rendered HTML body part is that captured header, followed by a
line break (`<BR>`), followed by the concatenation (no separator) of all
HTML fragments in call order. -/
theorem claim_c2_amended (s : SmtpSender) (first : String × Option String)
    (rest : List (String × Option String)) (now : LocalTime) (e : Bool)
    (hh : s.html_header = "") (hp : s.html_parts = [])
    (hstyle : first.2 ≠ some "")
    (h1 : s.to_addresses ≠ []) (h2 : s.sendFrom ≠ "") (h3 : s.smtp_server ≠ "") :
    ((applyHtmlCalls s (first :: rest)).html_header
        = first.2.getD SmtpSender.template_html_header)
    ∧ ((applyHtmlCalls s (first :: rest)).html_parts = (first :: rest).map Prod.fst)
    ∧ (((applyHtmlCalls s (first :: rest)).send_email now e).state.smtp_message.payload
        = s.smtp_message.payload
          ++ (if s.text_parts.length > 0
              then [MimePart.text "plain" (String.intercalate "\n" s.text_parts)] else [])
          ++ [MimePart.text "html"
                (first.2.getD SmtpSender.template_html_header ++ "<BR>"
                  ++ String.join ((first :: rest).map Prod.fst))]) := by
  have hcap := add_html_text_capture s first.1 first.2 hh
  have hcapne : (s.add_html_text first.1 first.2).html_header ≠ "" := by
    rw [hcap.1]
    cases hst : first.2 with
    | none => simp [Option.getD, template_html_header_ne_empty]
    | some st =>
      simp only [Option.getD]
      intro hse
      exact hstyle (by rw [hst, hse])
  have hstep : applyHtmlCalls s (first :: rest)
      = applyHtmlCalls (s.add_html_text first.1 first.2) rest := rfl
  have hfroz := applyHtmlCalls_frozen rest (s.add_html_text first.1 first.2) hcapne
  have hfields := applyHtmlCalls_fields rest (s.add_html_text first.1 first.2)
  have hbase := add_html_text_fields s first.1 first.2
  have hdr : (applyHtmlCalls s (first :: rest)).html_header
      = first.2.getD SmtpSender.template_html_header := by
    rw [hstep, hfroz.1, hcap.1]
  have hparts : (applyHtmlCalls s (first :: rest)).html_parts
      = (first :: rest).map Prod.fst := by
    rw [hstep, hfroz.2, hcap.2, hp]
    simp
  refine ⟨hdr, hparts, ?_⟩
  have hto : (applyHtmlCalls s (first :: rest)).to_addresses = s.to_addresses := by
    rw [hstep, hfields.1, hbase.1]
  have hfrom : (applyHtmlCalls s (first :: rest)).sendFrom = s.sendFrom := by
    rw [hstep, hfields.2.2.1, hbase.2.2.1]
  have hsrv : (applyHtmlCalls s (first :: rest)).smtp_server = s.smtp_server := by
    rw [hstep, hfields.2.2.2.1, hbase.2.2.2.1]
  have htext : (applyHtmlCalls s (first :: rest)).text_parts = s.text_parts := by
    rw [hstep, hfields.2.2.2.2.1, hbase.2.2.2.2.1]
  have hmsg : (applyHtmlCalls s (first :: rest)).smtp_message = s.smtp_message := by
    rw [hstep, hfields.2.2.2.2.2.1, hbase.2.2.2.2.2.1]
  have h1' : (applyHtmlCalls s (first :: rest)).to_addresses.length ≠ 0 := by
    rw [hto]
    exact fun hl => h1 (List.length_eq_zero.mp hl)
  have h2' : (applyHtmlCalls s (first :: rest)).sendFrom.length ≠ 0 := by
    rw [hfrom]
    exact fun hl => h2 ((stringLengthZeroIff _).mp hl)
  have h3' : (applyHtmlCalls s (first :: rest)).smtp_server.length ≠ 0 := by
    rw [hsrv]
    exact fun hl => h3 ((stringLengthZeroIff _).mp hl)
  have hhtmlpos : (applyHtmlCalls s (first :: rest)).html_parts.length > 0 := by
    rw [hparts]
    simp
  rw [send_email_ok (applyHtmlCalls s (first :: rest)) now e h1' h2' h3', sentMessage, hmsg,
    htext, if_pos hhtmlpos, hdr, hparts]

theorem claim_c2_amended_witness :
    ((applyHtmlCalls (SmtpSender.init.add_to_line_address "a@x")
        [("<p>1</p>", none), ("<p>2</p>", some "custom")]).html_header
      = SmtpSender.template_html_header)
    ∧ ((applyHtmlCalls (SmtpSender.init.add_to_line_address "a@x")
        [("<p>1</p>", none), ("<p>2</p>", some "custom")]).html_parts
      = ["<p>1</p>", "<p>2</p>"]) := by
  have h := claim_c2_amended (SmtpSender.init.add_to_line_address "a@x")
    ("<p>1</p>", none) [("<p>2</p>", some "custom")] sampleTime false
    rfl rfl (by simp) (by decide) (by decide) (by decide)
  exact ⟨h.1, h.2.1⟩

/-! ## The convenience entry point -/

/-- C8: `sendEmailMessage` raises an InputTypeError (distinct per parameter)
when any of the to/cc/bcc address arguments is neither a string nor a list,
before any transport call is made; a string argument is comma-split into a
list and a list argument is used as-is. -/
theorem claim_c8 (toA : AddrParam) (subj htmlT : String) (style : Option String)
    (fromA : Option String) (ccA bccA : Option AddrParam) (now : LocalTime) :
    (toA = AddrParam.other →
      send_email_message toA subj htmlT style fromA ccA bccA now
        = ([], some "Address list for To line not recognized"))
    ∧ (toA ≠ AddrParam.other → ccA = some AddrParam.other →
      send_email_message toA subj htmlT style fromA ccA bccA now
        = ([], some "Address list for Cc line not recognized"))
    ∧ (toA ≠ AddrParam.other → ccA ≠ some AddrParam.other → bccA = some AddrParam.other →
      send_email_message toA subj htmlT style fromA ccA bccA now
        = ([], some "BCC address list not recognized"))
    ∧ (("Address list for To line not recognized" : String)
          ≠ "Address list for Cc line not recognized"
        ∧ ("Address list for To line not recognized" : String)
          ≠ "BCC address list not recognized"
        ∧ ("Address list for Cc line not recognized" : String)
          ≠ "BCC address list not recognized")
    ∧ (∀ a : String,
        send_email_message (AddrParam.str a) subj htmlT style fromA ccA bccA now
          = send_email_message (AddrParam.list (pySplit a ',')) subj htmlT style fromA ccA
              bccA now)
    ∧ (∀ l : List String, l ≠ [] →
        ∃ c : TransportCall,
          (send_email_message (AddrParam.list l) subj htmlT style none none none now).1
              = [c]
          ∧ c.envelopeRecipients = l) := by
  refine ⟨?_, ?_, ?_, by refine ⟨by decide, by decide, by decide⟩, ?_, ?_⟩
  · intro h
    subst h
    rfl
  · intro hto hcc
    subst hcc
    cases toA with
    | str a => rfl
    | list l => rfl
    | other => exact absurd rfl hto
  · intro hto hcc hbcc
    subst hbcc
    cases toA with
    | other => exact absurd rfl hto
    | str a =>
      cases ccA with
      | none => rfl
      | some p =>
        cases p with
        | str b => rfl
        | list m => rfl
        | other => exact absurd rfl hcc
    | list l =>
      cases ccA with
      | none => rfl
      | some p =>
        cases p with
        | str b => rfl
        | list m => rfl
        | other => exact absurd rfl hcc
  · intro a
    rfl
  · intro l hl
    have hto : (({ SmtpSender.init.set_to_addresses l with
        subject := subj }).add_html_text htmlT style).to_addresses = l :=
      (add_html_text_fields _ htmlT style).1
    have h1' : (({ SmtpSender.init.set_to_addresses l with
        subject := subj }).add_html_text htmlT style).to_addresses.length ≠ 0 := by
      rw [hto]
      exact fun h0 => hl (List.length_eq_zero.mp h0)
    have hfrom : (({ SmtpSender.init.set_to_addresses l with
        subject := subj }).add_html_text htmlT style).sendFrom
          = "do-not-reply@somewhere.org" :=
      (add_html_text_fields _ htmlT style).2.2.1
    have h2' : (({ SmtpSender.init.set_to_addresses l with
        subject := subj }).add_html_text htmlT style).sendFrom.length ≠ 0 := by
      rw [hfrom]
      decide
    have hsrv : (({ SmtpSender.init.set_to_addresses l with
        subject := subj }).add_html_text htmlT style).smtp_server = "smtp.host.address" :=
      (add_html_text_fields _ htmlT style).2.2.2.1
    have h3' : (({ SmtpSender.init.set_to_addresses l with
        subject := subj }).add_html_text htmlT style).smtp_server.length ≠ 0 := by
      rw [hsrv]
      decide
    show ∃ c : TransportCall,
      ((({ SmtpSender.init.set_to_addresses l with
          subject := subj }).add_html_text htmlT style).send_email now true).transportCalls
          = [c]
      ∧ c.envelopeRecipients = l
    rw [send_email_ok _ now true h1' h2' h3']
    refine ⟨_, rfl, ?_⟩
    exact (add_html_text_fields _ htmlT style).2.2.2.2.2.2

theorem claim_c8_witness :
    send_email_message AddrParam.other "Subj" "<p>hi</p>" none none none none sampleTime
        = ([], some "Address list for To line not recognized")
    ∧ send_email_message (AddrParam.str "a@x") "Subj" "<p>hi</p>" none none
        (some AddrParam.other) none sampleTime
        = ([], some "Address list for Cc line not recognized")
    ∧ send_email_message (AddrParam.str "a@x") "Subj" "<p>hi</p>" none none none
        (some AddrParam.other) sampleTime
        = ([], some "BCC address list not recognized") := by
  refine ⟨(claim_c8 AddrParam.other "Subj" "<p>hi</p>" none none none none sampleTime).1 rfl,
    (claim_c8 (AddrParam.str "a@x") "Subj" "<p>hi</p>" none none (some AddrParam.other) none
      sampleTime).2.1 (by simp) rfl,
    (claim_c8 (AddrParam.str "a@x") "Subj" "<p>hi</p>" none none none (some AddrParam.other)
      sampleTime).2.2.1 (by simp) (by simp) rfl⟩
